import Mathlib

/-!
Shallow embedding of the llm-tts-plugin repository (TypeScript sources under
src/): the two provider clients (GeminiService, ElevenLabsTTSService) and the
dialogue orchestrator (AIManager.generateNpcDialogue).  External effects
(adapter calls, provider calls, logging of error paths) are modelled as an
explicit environment of fallible functions plus an event trace; JavaScript
promise rejection is modelled with Except, the null sentinel with Option, and
JavaScript string truthiness (empty string is falsy) with an explicit helper.
-/

/-- Model of the JavaScript expression a || b for a : string | undefined and
b : string: undefined and the empty string are falsy, so they fall through to
the fallback.  Used by both service constructors for model resolution and by
the prompt builder for the personality fallback. -/
def jsTruthyOr (value : Option String) (fallback : String) : String :=
  match value with
  | none => fallback
  | some s => if s = "" then fallback else s

/-- Entity record returned by GameAdapter.getEntityState: name plus optional
personality (source type: name string, personality optional string). -/
structure EntityState where
  name : String
  personality : Option String

/-- Player record returned by GameAdapter.getPlayerState. -/
structure PlayerState where
  name : String
  level : Nat

/-- World record returned by GameAdapter.getGameState. -/
structure GameState where
  location : String
  timeOfDay : String

/-- GeminiService instance state after construction: the stored key handle and
the resolved model name (both private fields in the source, set once in the
constructor and never reassigned). -/
structure GeminiService where
  apiKey : String
  modelName : String

/-- GeminiService constructor, from src/src/core/tts/ElevenLabsTTSService.ts
(the GeminiService part).  The source body is exactly
new GoogleGenAI with the key, then
modelName := modelName || process.env.GEMINI_MODEL_NAME || "gemini-1.5-flash".
It contains no validation and no throw statement, so in the Except embedding
used for constructors it always returns ok.  The environment variable is
passed in explicitly as envModelName. -/
def GeminiService.construct (apiKey : String) (modelName envModelName : Option String) :
    Except String GeminiService :=
  Except.ok { apiKey := apiKey,
              modelName := jsTruthyOr modelName (jsTruthyOr envModelName "gemini-1.5-flash") }

/-- ElevenLabsTTSService instance state after construction: key, the
hard-coded voice id field initializer, and the resolved model id. -/
structure ElevenLabsTTSService where
  apiKey : String
  voiceId : String
  modelId : String

/-- ElevenLabsTTSService constructor, from
src/src/core/tts/ElevenLabsTTSService.ts: throws when the key is falsy
(empty), otherwise stores the key, the fixed voiceId field initializer, and
modelId := modelId || process.env.ELEVENLABS_MODEL_ID || "eleven_multilingual_v2".
The environment variable is passed in explicitly as envModelId. -/
def ElevenLabsTTSService.construct (apiKey : String) (modelId envModelId : Option String) :
    Except String ElevenLabsTTSService :=
  if apiKey = "" then Except.error "ElevenLabs API key is required."
  else Except.ok { apiKey := apiKey,
                   voiceId := "21m00Tcm4TlvDq8ikWAM",
                   modelId := jsTruthyOr modelId (jsTruthyOr envModelId "eleven_multilingual_v2") }

/-- C7: for both clients the effective model identifier is resolved at
construction with priority constructor argument, else environment variable,
else the fixed default ("gemini-1.5-flash" for the text client,
"eleven_multilingual_v2" for the speech client); the constructed instance
carries exactly that identifier (and, being a plain record fixed at
construction, it is immutable afterward). -/
theorem model_resolution_priority (key : String) (hkey : key ≠ "") (arg envv : Option String) :
    (∀ s, arg = some s → s ≠ "" →
       ElevenLabsTTSService.construct key arg envv =
         Except.ok ⟨key, "21m00Tcm4TlvDq8ikWAM", s⟩ ∧
       GeminiService.construct key arg envv = Except.ok ⟨key, s⟩) ∧
    (∀ e, (arg = none ∨ arg = some "") → envv = some e → e ≠ "" →
       ElevenLabsTTSService.construct key arg envv =
         Except.ok ⟨key, "21m00Tcm4TlvDq8ikWAM", e⟩ ∧
       GeminiService.construct key arg envv = Except.ok ⟨key, e⟩) ∧
    ((arg = none ∨ arg = some "") → (envv = none ∨ envv = some "") →
       ElevenLabsTTSService.construct key arg envv =
         Except.ok ⟨key, "21m00Tcm4TlvDq8ikWAM", "eleven_multilingual_v2"⟩ ∧
       GeminiService.construct key arg envv = Except.ok ⟨key, "gemini-1.5-flash"⟩) := by
  refine ⟨?_, ?_, ?_⟩
  · intro s hs hne
    subst hs
    simp [ElevenLabsTTSService.construct, GeminiService.construct, jsTruthyOr, hkey, hne]
  · intro e harg henv hne
    subst henv
    rcases harg with h | h <;> subst h <;>
      simp [ElevenLabsTTSService.construct, GeminiService.construct, jsTruthyOr, hkey, hne]
  · intro harg henv
    rcases harg with h | h <;> rcases henv with h2 | h2 <;> subst h <;> subst h2 <;>
      simp [ElevenLabsTTSService.construct, GeminiService.construct, jsTruthyOr, hkey]

/-- Witness for C7 at a concrete input: a non-empty constructor argument wins
over an absent environment variable for both clients. -/
theorem model_resolution_priority_witness :
    ElevenLabsTTSService.construct "k" (some "m") none =
      Except.ok ⟨"k", "21m00Tcm4TlvDq8ikWAM", "m"⟩ ∧
    GeminiService.construct "k" (some "m") none = Except.ok ⟨"k", "m"⟩ :=
  (model_resolution_priority "k" (by decide) (some "m") none).1 "m" rfl (by decide)

/-- C8: the speech client constructor fails exactly on the empty key, with the
fixed error message, and succeeds for every non-empty key; the constructor is
a pure record build with no transport argument, so no network activity is
possible during construction. -/
theorem elevenlabs_construct_key_check (key : String) (arg envv : Option String) :
    (ElevenLabsTTSService.construct key arg envv).isOk = !(key == "") ∧
    (key = "" →
      ElevenLabsTTSService.construct key arg envv =
        Except.error "ElevenLabs API key is required.") := by
  constructor
  · by_cases h : key = "" <;> simp [ElevenLabsTTSService.construct, h, Except.isOk, Except.toBool]
  · intro h
    simp [ElevenLabsTTSService.construct, h]

/-- Witness for C8: the empty key is rejected at construction with the fixed
error message. -/
theorem elevenlabs_construct_key_check_witness :
    ElevenLabsTTSService.construct "" none none =
      Except.error "ElevenLabs API key is required." :=
  (elevenlabs_construct_key_check "" none none).2 rfl

/-- C9 counterexample: constructing the text client with an empty API key does
not fail — the GeminiService constructor contains no key validation, so the
empty key is accepted and stored, refuting the claim that an empty key is a
construction-time failure raised immediately to the caller. -/
theorem gemini_construct_empty_key_succeeds :
    GeminiService.construct "" none none = Except.ok ⟨"", "gemini-1.5-flash"⟩ := rfl

/-- C9 amended: construction of the text client performs no API-key
validation; it succeeds for every key, including the empty string, and stores
the supplied key unchanged.  Only the speech client validates its key. -/
theorem gemini_construct_never_fails (key : String) (arg envv : Option String) :
    (GeminiService.construct key arg envv).isOk = true ∧
    (∀ svc, GeminiService.construct key arg envv = Except.ok svc → svc.apiKey = key) := by
  constructor
  · simp [GeminiService.construct, Except.isOk, Except.toBool]
  · intro svc h
    cases h
    rfl

/-- Witness for C9 amended, at the empty key. -/
theorem gemini_construct_never_fails_witness :
    (GeminiService.construct "" none none).isOk = true :=
  (gemini_construct_never_fails "" none none).1

/-- C10: for both clients an empty-string constructor override is treated as
absent (resolution falls through to the environment variable), an empty
environment variable likewise falls through to the fixed default, and the
effective model identifier is never the empty string. -/
theorem empty_model_override_falls_through (key : String) (hkey : key ≠ "")
    (envv : Option String) :
    (∀ e, envv = some e → e ≠ "" →
       ElevenLabsTTSService.construct key (some "") envv =
         Except.ok ⟨key, "21m00Tcm4TlvDq8ikWAM", e⟩ ∧
       GeminiService.construct key (some "") envv = Except.ok ⟨key, e⟩) ∧
    ((envv = none ∨ envv = some "") →
       ElevenLabsTTSService.construct key (some "") envv =
         Except.ok ⟨key, "21m00Tcm4TlvDq8ikWAM", "eleven_multilingual_v2"⟩ ∧
       GeminiService.construct key (some "") envv = Except.ok ⟨key, "gemini-1.5-flash"⟩) ∧
    (∀ svc, ElevenLabsTTSService.construct key (some "") envv = Except.ok svc →
       svc.modelId ≠ "") ∧
    (∀ g, GeminiService.construct key (some "") envv = Except.ok g → g.modelName ≠ "") := by
  refine ⟨?_, ?_, ?_, ?_⟩
  · intro e henv hne
    subst henv
    simp [ElevenLabsTTSService.construct, GeminiService.construct, jsTruthyOr, hkey, hne]
  · intro henv
    rcases henv with h | h <;> subst h <;>
      simp [ElevenLabsTTSService.construct, GeminiService.construct, jsTruthyOr, hkey]
  · intro svc h
    simp only [ElevenLabsTTSService.construct, hkey, if_neg hkey] at h
    cases h
    rcases envv with _ | e
    · simp [jsTruthyOr]
    · by_cases he : e = "" <;> simp [jsTruthyOr, he]
  · intro g h
    simp only [GeminiService.construct] at h
    cases h
    rcases envv with _ | e
    · simp [jsTruthyOr]
    · by_cases he : e = "" <;> simp [jsTruthyOr, he]

/-- Witness for C10: an explicit empty-string override with a non-empty
environment variable resolves to the environment variable for both clients. -/
theorem empty_model_override_falls_through_witness :
    ElevenLabsTTSService.construct "k" (some "") (some "m") =
      Except.ok ⟨"k", "21m00Tcm4TlvDq8ikWAM", "m"⟩ ∧
    GeminiService.construct "k" (some "") (some "m") = Except.ok ⟨"k", "m"⟩ :=
  (empty_model_override_falls_through "k" (by decide) (some "m")).1 "m" rfl (by decide)

/-- Observable actions of one generateNpcDialogue invocation, in call order:
the three adapter state fetches, the text client call with its prompt, the
showDialogue UI call, the speech client call, the playAudio call, the
non-fatal audio failure log, and the top-level catch log.  Informational logs
that carry no error are not modelled. -/
inductive Event where
  | getEntityState (entityId : String)
  | getPlayerState
  | getGameState
  | llmGenerateText (prompt : String)
  | showDialogue (text : String) (entityId : String)
  | ttsGenerateSpeech (text : String)
  | playAudio (audio : List Nat) (entityId : String)
  | logAudioFailure
  | logTopLevelError (entityId : String) (error : String)
deriving DecidableEq

/-- Environment of one generateNpcDialogue invocation: the adapter state
fetches and playAudio (each an awaited promise that can reject), and the two
owned service calls (awaited promises resolving to a value or to the null
sentinel, or rejecting).  showDialogue is a void fire-and-forget UI call and
is recorded only as an event. -/
structure DialogueEnv where
  getEntityState : String → Except String EntityState
  getPlayerState : Except String PlayerState
  getGameState : Except String GameState
  llmGenerateText : String → Except String (Option String)
  ttsGenerateSpeech : String → Except String (Option (List Nat))
  playAudio : List Nat → String → Except String Unit

/-- Prompt template from AIManager.generateNpcDialogue, character for
character (template literal with its 16-space indentation), with the
JavaScript personality fallback npcState.personality || "a mysterious
stranger".  Nested to the right so that each interpolated value is the head of
its remaining suffix. -/
def AIManager.buildPrompt (npcState : EntityState) (playerState : PlayerState)
    (gameState : GameState) : String :=
  "\n                You are " ++
    (npcState.name ++
      (", a character in a fantasy RPG.\n                Your personality is: " ++
        (jsTruthyOr npcState.personality "a mysterious stranger" ++
          (".\n                You are talking to a player named " ++
            (playerState.name ++
              (".\n                The player\x27s level is " ++
                (toString playerState.level ++
                  (".\n                Current situation: You are at " ++
                    (gameState.location ++
                      (", and it is " ++
                        (gameState.timeOfDay ++
                          ".\n                \n                Based on this, generate a single, short, engaging line of dialogue for the player. Be creative.")))))))))))

/-- Body of the try block of AIManager.generateNpcDialogue: the event trace of
the calls issued, paired with some error when an exception was raised inside
the block (a rejected adapter fetch, the explicit throw on a falsy text
result — the JS truthiness guard if (!dialogueText) fires on null and on the
empty string alike — a rejected service call, or a rejected playAudio) and
none when the block ran to a normal return. -/
def AIManager.tryBlock (env : DialogueEnv) (entityId : String) :
    List Event × Option String :=
  match env.getEntityState entityId with
  | Except.error e => ([Event.getEntityState entityId], some e)
  | Except.ok npcState =>
    match env.getPlayerState with
    | Except.error e => ([Event.getEntityState entityId, Event.getPlayerState], some e)
    | Except.ok playerState =>
      match env.getGameState with
      | Except.error e =>
          ([Event.getEntityState entityId, Event.getPlayerState, Event.getGameState], some e)
      | Except.ok gameState =>
        let prompt := AIManager.buildPrompt npcState playerState gameState
        match env.llmGenerateText prompt with
        | Except.error e =>
            ([Event.getEntityState entityId, Event.getPlayerState, Event.getGameState,
              Event.llmGenerateText prompt], some e)
        | Except.ok none =>
            ([Event.getEntityState entityId, Event.getPlayerState, Event.getGameState,
              Event.llmGenerateText prompt], some "Failed to generate dialogue text.")
        | Except.ok (some dialogueText) =>
          if dialogueText = "" then
            ([Event.getEntityState entityId, Event.getPlayerState, Event.getGameState,
              Event.llmGenerateText prompt], some "Failed to generate dialogue text.")
          else
            match env.ttsGenerateSpeech dialogueText with
            | Except.error e =>
                ([Event.getEntityState entityId, Event.getPlayerState, Event.getGameState,
                  Event.llmGenerateText prompt, Event.showDialogue dialogueText entityId,
                  Event.ttsGenerateSpeech dialogueText], some e)
            | Except.ok none =>
                ([Event.getEntityState entityId, Event.getPlayerState, Event.getGameState,
                  Event.llmGenerateText prompt, Event.showDialogue dialogueText entityId,
                  Event.ttsGenerateSpeech dialogueText, Event.logAudioFailure], none)
            | Except.ok (some audioData) =>
              match env.playAudio audioData entityId with
              | Except.error e =>
                  ([Event.getEntityState entityId, Event.getPlayerState, Event.getGameState,
                    Event.llmGenerateText prompt, Event.showDialogue dialogueText entityId,
                    Event.ttsGenerateSpeech dialogueText, Event.playAudio audioData entityId],
                   some e)
              | Except.ok _ =>
                  ([Event.getEntityState entityId, Event.getPlayerState, Event.getGameState,
                    Event.llmGenerateText prompt, Event.showDialogue dialogueText entityId,
                    Event.ttsGenerateSpeech dialogueText, Event.playAudio audioData entityId],
                   none)

/-- AIManager.generateNpcDialogue: runs the try block; on any raised error the
catch handler logs the entity id with the error and shows the fixed fallback
text.  The function is total — no error component survives into the result. -/
def AIManager.generateNpcDialogue (env : DialogueEnv) (entityId : String) : List Event :=
  match AIManager.tryBlock env entityId with
  | (events, none) => events
  | (events, some e) =>
      events ++ [Event.logTopLevelError entityId e, Event.showDialogue "..." entityId]

/-- Helper: a substring of b stays a substring of a ++ b, at the level of the
underlying character lists. -/
theorem infix_data_append_right (a b : String) (x : List Char) (h : x <:+: b.data) :
    x <:+: (a ++ b).data := by
  rcases h with ⟨s, t, hst⟩
  refine ⟨a.data ++ s, t, ?_⟩
  have hd : (a ++ b).data = a.data ++ b.data := rfl
  rw [hd, ← hst]
  simp

/-- Helper: a is a substring of a ++ b, at the level of the underlying
character lists. -/
theorem infix_data_self_append (a b : String) : a.data <:+: (a ++ b).data := by
  refine ⟨[], b.data, ?_⟩
  have hd : (a ++ b).data = a.data ++ b.data := rfl
  rw [hd]
  simp

/-- C1: whenever the try block of generateNpcDialogue raises (any failing
fetch, the explicit throw on a null text result, or a rejected service or
playAudio call), the top-level catch appends exactly a diagnostic log naming
the entity id and the error, followed by the fixed fallback showDialogue with
the ellipsis text for that entity; generateNpcDialogue itself is a total
function into plain traces, so no exception escapes to its caller. -/
theorem generateNpcDialogue_catches_all_errors (env : DialogueEnv) (entityId : String)
    (events : List Event) (e : String)
    (h : AIManager.tryBlock env entityId = (events, some e)) :
    AIManager.generateNpcDialogue env entityId =
      events ++ [Event.logTopLevelError entityId e, Event.showDialogue "..." entityId] := by
  unfold AIManager.generateNpcDialogue
  rw [h]

/-- Environment for the C1 witness: the entity state fetch rejects. -/
def c1Env : DialogueEnv :=
  { getEntityState := fun _ => Except.error "state fetch failed",
    getPlayerState := Except.ok ⟨"P", 1⟩,
    getGameState := Except.ok ⟨"L", "noon"⟩,
    llmGenerateText := fun _ => Except.ok (some "hi"),
    ttsGenerateSpeech := fun _ => Except.ok (some [0]),
    playAudio := fun _ _ => Except.ok () }

/-- Witness for C1: a rejected entity state fetch ends in the logged
diagnostic and the fallback ellipsis display. -/
theorem generateNpcDialogue_catches_all_errors_witness :
    AIManager.generateNpcDialogue c1Env "npc-9" =
      [Event.getEntityState "npc-9", Event.logTopLevelError "npc-9" "state fetch failed",
       Event.showDialogue "..." "npc-9"] := by
  have h := generateNpcDialogue_catches_all_errors c1Env "npc-9"
    [Event.getEntityState "npc-9"] "state fetch failed" rfl
  simpa using h

/-- C2: when the three context fetches succeed and the text client resolves to
the null sentinel, generateNpcDialogue shows the fallback ellipsis for the
entity and never calls the speech client or playAudio in that invocation (the
null result is converted by the source into a thrown error that the top-level
catch turns into the fallback display). -/
theorem generateNpcDialogue_null_text_fallback (env : DialogueEnv) (entityId : String)
    (npc : EntityState) (player : PlayerState) (game : GameState)
    (h1 : env.getEntityState entityId = Except.ok npc)
    (h2 : env.getPlayerState = Except.ok player)
    (h3 : env.getGameState = Except.ok game)
    (h4 : env.llmGenerateText (AIManager.buildPrompt npc player game) = Except.ok none) :
    AIManager.generateNpcDialogue env entityId =
      [Event.getEntityState entityId, Event.getPlayerState, Event.getGameState,
       Event.llmGenerateText (AIManager.buildPrompt npc player game),
       Event.logTopLevelError entityId "Failed to generate dialogue text.",
       Event.showDialogue "..." entityId] ∧
    Event.showDialogue "..." entityId ∈ AIManager.generateNpcDialogue env entityId ∧
    (∀ t, Event.ttsGenerateSpeech t ∉ AIManager.generateNpcDialogue env entityId) ∧
    (∀ a eid, Event.playAudio a eid ∉ AIManager.generateNpcDialogue env entityId) := by
  have htrace : AIManager.generateNpcDialogue env entityId =
      [Event.getEntityState entityId, Event.getPlayerState, Event.getGameState,
       Event.llmGenerateText (AIManager.buildPrompt npc player game),
       Event.logTopLevelError entityId "Failed to generate dialogue text.",
       Event.showDialogue "..." entityId] := by
    unfold AIManager.generateNpcDialogue AIManager.tryBlock
    simp only [h1, h2, h3, h4]
    rfl
  refine ⟨htrace, ?_, ?_, ?_⟩
  · rw [htrace]; simp
  · intro t; rw [htrace]; simp
  · intro a eid; rw [htrace]; simp

/-- Environment for the C2 witness: fetches succeed, the text client returns
the null sentinel. -/
def c2Env : DialogueEnv :=
  { getEntityState := fun _ => Except.ok ⟨"N", none⟩,
    getPlayerState := Except.ok ⟨"P", 1⟩,
    getGameState := Except.ok ⟨"L", "noon"⟩,
    llmGenerateText := fun _ => Except.ok none,
    ttsGenerateSpeech := fun _ => Except.ok (some [0]),
    playAudio := fun _ _ => Except.ok () }

/-- Witness for C2: with a null text result the fallback ellipsis is shown. -/
theorem generateNpcDialogue_null_text_fallback_witness :
    Event.showDialogue "..." "npc-2" ∈ AIManager.generateNpcDialogue c2Env "npc-2" :=
  (generateNpcDialogue_null_text_fallback c2Env "npc-2" ⟨"N", none⟩ ⟨"P", 1⟩ ⟨"L", "noon"⟩
    rfl rfl rfl rfl).2.1

/-- C3 as amended: when the fetches succeed, the text client resolves to a
non-empty text t (an empty string is falsy for the source truthiness guard
and takes the fallback path instead) and the speech client resolves to the
null sentinel, the trace is exactly the three fetches, the text call,
showDialogue with t, the speech call, and the non-fatal audio failure log:
the generated text is displayed, playAudio is never called, the fallback
ellipsis display never happens (when t itself is not the ellipsis), and the
invocation ends normally with just the log. -/
theorem generateNpcDialogue_null_speech_text_only (env : DialogueEnv) (entityId : String)
    (npc : EntityState) (player : PlayerState) (game : GameState) (t : String)
    (h1 : env.getEntityState entityId = Except.ok npc)
    (h2 : env.getPlayerState = Except.ok player)
    (h3 : env.getGameState = Except.ok game)
    (h4 : env.llmGenerateText (AIManager.buildPrompt npc player game) = Except.ok (some t))
    (h5 : env.ttsGenerateSpeech t = Except.ok none)
    (ht : t ≠ "") :
    AIManager.generateNpcDialogue env entityId =
      [Event.getEntityState entityId, Event.getPlayerState, Event.getGameState,
       Event.llmGenerateText (AIManager.buildPrompt npc player game),
       Event.showDialogue t entityId, Event.ttsGenerateSpeech t,
       Event.logAudioFailure] ∧
    (∀ a eid, Event.playAudio a eid ∉ AIManager.generateNpcDialogue env entityId) ∧
    (t ≠ "..." → Event.showDialogue "..." entityId ∉ AIManager.generateNpcDialogue env entityId) := by
  have htrace : AIManager.generateNpcDialogue env entityId =
      [Event.getEntityState entityId, Event.getPlayerState, Event.getGameState,
       Event.llmGenerateText (AIManager.buildPrompt npc player game),
       Event.showDialogue t entityId, Event.ttsGenerateSpeech t,
       Event.logAudioFailure] := by
    unfold AIManager.generateNpcDialogue AIManager.tryBlock
    simp only [h1, h2, h3, h4, if_neg ht, h5]
  refine ⟨htrace, ?_, ?_⟩
  · intro a eid; rw [htrace]; simp
  · intro ht; rw [htrace]; simp [Ne.symm ht]

/-- Environment for the C3 witness: speech synthesis returns the null
sentinel. -/
def c3Env : DialogueEnv :=
  { getEntityState := fun _ => Except.ok ⟨"N", none⟩,
    getPlayerState := Except.ok ⟨"P", 1⟩,
    getGameState := Except.ok ⟨"L", "noon"⟩,
    llmGenerateText := fun _ => Except.ok (some "hi"),
    ttsGenerateSpeech := fun _ => Except.ok none,
    playAudio := fun _ _ => Except.ok () }

/-- Witness for C3: the full trace with a null speech result ends in the
displayed text and the non-fatal log, with no playAudio. -/
theorem generateNpcDialogue_null_speech_text_only_witness :
    AIManager.generateNpcDialogue c3Env "npc-3" =
      [Event.getEntityState "npc-3", Event.getPlayerState, Event.getGameState,
       Event.llmGenerateText (AIManager.buildPrompt ⟨"N", none⟩ ⟨"P", 1⟩ ⟨"L", "noon"⟩),
       Event.showDialogue "hi" "npc-3", Event.ttsGenerateSpeech "hi",
       Event.logAudioFailure] :=
  (generateNpcDialogue_null_speech_text_only c3Env "npc-3" ⟨"N", none⟩ ⟨"P", 1⟩ ⟨"L", "noon"⟩
    "hi" rfl rfl rfl rfl rfl (by decide)).1

/-- Environment for the C3 counterexample: the text client resolves to the
empty string (non-null) and the speech client would return the null
sentinel. -/
def c3CexEnv : DialogueEnv :=
  { getEntityState := fun _ => Except.ok ⟨"N", none⟩,
    getPlayerState := Except.ok ⟨"P", 1⟩,
    getGameState := Except.ok ⟨"L", "noon"⟩,
    llmGenerateText := fun _ => Except.ok (some ""),
    ttsGenerateSpeech := fun _ => Except.ok none,
    playAudio := fun _ _ => Except.ok () }

/-- C3 counterexample: at the concrete non-null text result "" the source
truthiness guard throws, so generateNpcDialogue logs and shows the fallback
ellipsis — the empty text is never displayed and the speech client is never
called, refuting the original claim for this non-null text. -/
theorem generateNpcDialogue_empty_text_takes_fallback :
    AIManager.generateNpcDialogue c3CexEnv "e3" =
      [Event.getEntityState "e3", Event.getPlayerState, Event.getGameState,
       Event.llmGenerateText (AIManager.buildPrompt ⟨"N", none⟩ ⟨"P", 1⟩ ⟨"L", "noon"⟩),
       Event.logTopLevelError "e3" "Failed to generate dialogue text.",
       Event.showDialogue "..." "e3"] ∧
    Event.showDialogue "" "e3" ∉ AIManager.generateNpcDialogue c3CexEnv "e3" ∧
    Event.ttsGenerateSpeech "" ∉ AIManager.generateNpcDialogue c3CexEnv "e3" :=
  ⟨rfl, by decide, by decide⟩

/-- C4 as amended: on the full success path — both clients succeeding with a
non-empty text t (an empty string is falsy for the source truthiness guard
and takes the fallback path instead) and audio bytes b — the trace is exactly
the three fetches, the text call on the built prompt, showDialogue with the
generated text t (before the speech call and before playAudio), the speech
call receiving exactly t, and playAudio with the returned bytes scoped to the
entity; and the prompt passed to the text client contains both the entity
name and the player name. -/
theorem generateNpcDialogue_success_flow (env : DialogueEnv) (entityId : String)
    (npc : EntityState) (player : PlayerState) (game : GameState) (t : String) (b : List Nat)
    (h1 : env.getEntityState entityId = Except.ok npc)
    (h2 : env.getPlayerState = Except.ok player)
    (h3 : env.getGameState = Except.ok game)
    (h4 : env.llmGenerateText (AIManager.buildPrompt npc player game) = Except.ok (some t))
    (h5 : env.ttsGenerateSpeech t = Except.ok (some b))
    (h6 : env.playAudio b entityId = Except.ok ())
    (ht : t ≠ "") :
    AIManager.generateNpcDialogue env entityId =
      [Event.getEntityState entityId, Event.getPlayerState, Event.getGameState,
       Event.llmGenerateText (AIManager.buildPrompt npc player game),
       Event.showDialogue t entityId, Event.ttsGenerateSpeech t,
       Event.playAudio b entityId] ∧
    npc.name.data <:+: (AIManager.buildPrompt npc player game).data ∧
    player.name.data <:+: (AIManager.buildPrompt npc player game).data := by
  refine ⟨?_, ?_, ?_⟩
  · unfold AIManager.generateNpcDialogue AIManager.tryBlock
    simp only [h1, h2, h3, h4, if_neg ht, h5, h6]
  · unfold AIManager.buildPrompt
    exact infix_data_append_right _ _ _ (infix_data_self_append _ _)
  · unfold AIManager.buildPrompt
    exact infix_data_append_right _ _ _ (infix_data_append_right _ _ _
      (infix_data_append_right _ _ _ (infix_data_append_right _ _ _
        (infix_data_append_right _ _ _ (infix_data_self_append _ _)))))

/-- Environment for the C4 witness: the end-to-end example with both provider
clients succeeding. -/
def c4Env : DialogueEnv :=
  { getEntityState := fun _ => Except.ok ⟨"Mysterious Old Man", some "cryptic and wise"⟩,
    getPlayerState := Except.ok ⟨"Eldrin", 5⟩,
    getGameState := Except.ok ⟨"the Whispering Woods", "dusk"⟩,
    llmGenerateText := fun _ => Except.ok (some "Greetings, traveler."),
    ttsGenerateSpeech := fun _ => Except.ok (some [1, 2, 3]),
    playAudio := fun _ _ => Except.ok () }

/-- Witness for C4: the end-to-end example trace shows the generated text
before the audio playback, both scoped to the entity. -/
theorem generateNpcDialogue_success_flow_witness :
    AIManager.generateNpcDialogue c4Env "npc-1" =
      [Event.getEntityState "npc-1", Event.getPlayerState, Event.getGameState,
       Event.llmGenerateText (AIManager.buildPrompt ⟨"Mysterious Old Man", some "cryptic and wise"⟩
         ⟨"Eldrin", 5⟩ ⟨"the Whispering Woods", "dusk"⟩),
       Event.showDialogue "Greetings, traveler." "npc-1",
       Event.ttsGenerateSpeech "Greetings, traveler.",
       Event.playAudio [1, 2, 3] "npc-1"] :=
  (generateNpcDialogue_success_flow c4Env "npc-1"
    ⟨"Mysterious Old Man", some "cryptic and wise"⟩ ⟨"Eldrin", 5⟩
    ⟨"the Whispering Woods", "dusk"⟩ "Greetings, traveler." [1, 2, 3]
    rfl rfl rfl rfl rfl rfl (by decide)).1

/-- Environment for the C4 counterexample: the text client resolves to the
empty string (non-null) while speech synthesis and playback would succeed. -/
def c4CexEnv : DialogueEnv :=
  { getEntityState := fun _ => Except.ok ⟨"N", none⟩,
    getPlayerState := Except.ok ⟨"P", 1⟩,
    getGameState := Except.ok ⟨"L", "noon"⟩,
    llmGenerateText := fun _ => Except.ok (some ""),
    ttsGenerateSpeech := fun _ => Except.ok (some [1]),
    playAudio := fun _ _ => Except.ok () }

/-- C4 counterexample: at the concrete non-null text result "" the source
truthiness guard throws before any display, speech call or playback, so the
trace is the fallback path — neither showDialogue with the generated text nor
playAudio happens, refuting the original claim for this text value even
though the speech client and playAudio would have succeeded. -/
theorem generateNpcDialogue_empty_text_no_success_flow :
    AIManager.generateNpcDialogue c4CexEnv "e4" =
      [Event.getEntityState "e4", Event.getPlayerState, Event.getGameState,
       Event.llmGenerateText (AIManager.buildPrompt ⟨"N", none⟩ ⟨"P", 1⟩ ⟨"L", "noon"⟩),
       Event.logTopLevelError "e4" "Failed to generate dialogue text.",
       Event.showDialogue "..." "e4"] ∧
    Event.showDialogue "" "e4" ∉ AIManager.generateNpcDialogue c4CexEnv "e4" ∧
    Event.playAudio [1] "e4" ∉ AIManager.generateNpcDialogue c4CexEnv "e4" :=
  ⟨rfl, by decide, by decide⟩

/-- One part of a provider content object: an optional text string. -/
structure GenPart where
  text : Option String

/-- Provider content object: an optional list of parts. -/
structure GenContent where
  parts : Option (List GenPart)

/-- Provider candidate: an optional content object. -/
structure GenCandidate where
  content : Option GenContent

/-- Provider response of generateContent: an optional list of candidates. -/
structure GenerateContentResult where
  candidates : Option (List GenCandidate)

/-- The optional-chaining extraction
result.candidates?.[0]?.content?.parts?.[0]?.text from
GeminiService.generateText, as an Option bind chain. -/
def GeminiService.extractText (result : GenerateContentResult) : Option String :=
  result.candidates.bind (fun cs => cs.head?)
    |>.bind (fun c => c.content)
    |>.bind (fun content => content.parts)
    |>.bind (fun ps => ps.head?)
    |>.bind (fun p => p.text)

/-- GeminiService.generateText: awaits the provider call (which can reject),
extracts the optional-chained text, and applies the JavaScript truthiness
check if (text): the extracted text is returned only when present and
non-empty, every other path (including a rejected provider call) returns the
null sentinel after a diagnostic log.  The provider call is abstracted as a
function of the prompt. -/
def GeminiService.generateText
    (provider : String → Except String GenerateContentResult) (prompt : String) :
    Option String :=
  match provider prompt with
  | Except.error _ => none
  | Except.ok result =>
    match GeminiService.extractText result with
    | some text => if text = "" then none else some text
    | none => none

/-- Characterization of the optional-chaining extraction: it produces a text
exactly when the first candidate exists and carries content whose parts list
has a first part with that text present. -/
theorem extractText_eq_some_iff (result : GenerateContentResult) (t : String) :
    GeminiService.extractText result = some t ↔
      ∃ cs c content ps p,
        result.candidates = some cs ∧ cs.head? = some c ∧ c.content = some content ∧
        content.parts = some ps ∧ ps.head? = some p ∧ p.text = some t := by
  constructor
  · intro h
    unfold GeminiService.extractText at h
    rw [Option.bind_eq_some] at h
    obtain ⟨p, h4, h5⟩ := h
    rw [Option.bind_eq_some] at h4
    obtain ⟨ps, h3, h4⟩ := h4
    rw [Option.bind_eq_some] at h3
    obtain ⟨content, h2, h3⟩ := h3
    rw [Option.bind_eq_some] at h2
    obtain ⟨c, h1, h2⟩ := h2
    rw [Option.bind_eq_some] at h1
    obtain ⟨cs, h0, h1⟩ := h1
    exact ⟨cs, c, content, ps, p, h0, h1, h2, h3, h4, h5⟩
  · rintro ⟨cs, c, content, ps, p, h0, h1, h2, h3, h4, h5⟩
    simp [GeminiService.extractText, h0, h1, h2, h3, h4, h5]

/-- C5: generateText returns a text t exactly when the provider resolved to a
response whose first candidate has content whose first part carries the
non-empty text t; in every other case — no candidates, missing content,
missing or empty text part, or a rejected provider call — it returns the null
sentinel, and being a total function it never raises past its boundary. -/
theorem generateText_extraction (provider : String → Except String GenerateContentResult)
    (prompt : String) (t : String) :
    GeminiService.generateText provider prompt = some t ↔
      ∃ result cs c content ps p,
        provider prompt = Except.ok result ∧
        result.candidates = some cs ∧ cs.head? = some c ∧ c.content = some content ∧
        content.parts = some ps ∧ ps.head? = some p ∧ p.text = some t ∧ t ≠ "" := by
  constructor
  · intro h
    rcases hp : provider prompt with e | result
    · have hgen : GeminiService.generateText provider prompt = none := by
        unfold GeminiService.generateText
        rw [hp]
      rw [hgen] at h
      simp at h
    · have hgen : GeminiService.generateText provider prompt =
          (match GeminiService.extractText result with
           | some text => if text = "" then none else some text
           | none => none) := by
        unfold GeminiService.generateText
        rw [hp]
      rw [hgen] at h
      rcases he : GeminiService.extractText result with _ | text
      · rw [he] at h
        simp at h
      · rw [he] at h
        by_cases ht : text = ""
        · simp [ht] at h
        · simp [ht] at h
          obtain ⟨cs, c, content, ps, p, h0, h1, h2, h3, h4, h5⟩ :=
            (extractText_eq_some_iff result text).mp he
          subst h
          exact ⟨result, cs, c, content, ps, p, rfl, h0, h1, h2, h3, h4, h5, ht⟩
  · rintro ⟨result, cs, c, content, ps, p, hp, h0, h1, h2, h3, h4, h5, h6⟩
    have he : GeminiService.extractText result = some t :=
      (extractText_eq_some_iff result t).mpr ⟨cs, c, content, ps, p, h0, h1, h2, h3, h4, h5⟩
    unfold GeminiService.generateText
    simp only [hp, he]
    simp [h6]

/-- Provider stub for the C5 witness: one candidate, one part, text "pong". -/
def c5Provider : String → Except String GenerateContentResult :=
  fun _ => Except.ok ⟨some [⟨some ⟨some [⟨some "pong"⟩]⟩⟩]⟩

/-- Witness for C5: the stubbed single-candidate response yields its text. -/
theorem generateText_extraction_witness :
    GeminiService.generateText c5Provider "ping" = some "pong" :=
  (generateText_extraction c5Provider "ping" "pong").mpr
    ⟨⟨some [⟨some ⟨some [⟨some "pong"⟩]⟩⟩]⟩, [⟨some ⟨some [⟨some "pong"⟩]⟩⟩],
     ⟨some ⟨some [⟨some "pong"⟩]⟩⟩, ⟨some [⟨some "pong"⟩]⟩, [⟨some "pong"⟩], ⟨some "pong"⟩,
     rfl, rfl, rfl, rfl, rfl, rfl, rfl, by decide⟩

/-- Fixed voice settings object of the TTS request body; the source literals
0.5 are exact binary fractions, represented as rationals. -/
structure VoiceSettings where
  stability : Rat
  similarity_boost : Rat

/-- JSON body of the TTS POST, as built in generateSpeech. -/
structure TTSRequestBody where
  text : String
  model_id : String
  voice_settings : VoiceSettings

/-- The one HTTP request generateSpeech issues: method, url, headers and JSON
body. -/
structure TTSRequest where
  method : String
  url : String
  headers : List (String × String)
  body : TTSRequestBody

/-- Transport response: status code, body as text (read on the failure path)
and body as raw bytes (read on the success path). -/
structure HttpResponse where
  status : Nat
  bodyText : String
  bodyBytes : List Nat

/-- Response.ok of WHATWG fetch: status in the 2xx success range. -/
def HttpResponse.ok (r : HttpResponse) : Bool :=
  decide (200 ≤ r.status ∧ r.status < 300)

/-- The request value built inside ElevenLabsTTSService.generateSpeech: POST
to the fixed endpoint plus the voice id path segment, Accept audio/mpeg,
Content-Type application/json, the xi-api-key header carrying the stored key,
and the JSON body with the input text, the resolved model id, and the fixed
0.5/0.5 voice settings. -/
def ElevenLabsTTSService.ttsRequest (svc : ElevenLabsTTSService) (text : String) :
    TTSRequest :=
  { method := "POST",
    url := "https://api.elevenlabs.io/v1/text-to-speech/" ++ svc.voiceId,
    headers := [("Accept", "audio/mpeg"), ("Content-Type", "application/json"),
                ("xi-api-key", svc.apiKey)],
    body := { text := text, model_id := svc.modelId,
              voice_settings := { stability := 1/2, similarity_boost := 1/2 } } }

/-- ElevenLabsTTSService.generateSpeech: issues the one POST through the
transport (abstracted as a function from the request to a response or a
rejection), returns the raw response bytes on an ok status, and on a non-ok
status (converted by the source into a thrown error carrying the response body
text) or a transport rejection returns the null sentinel after a log.  The
first component of the result records the requests issued. -/
def ElevenLabsTTSService.generateSpeech (svc : ElevenLabsTTSService)
    (transport : TTSRequest → Except String HttpResponse) (text : String) :
    List TTSRequest × Option (List Nat) :=
  let req := svc.ttsRequest text
  ([req],
    match transport req with
    | Except.error _ => none
    | Except.ok response =>
        if response.ok then some response.bodyBytes else none)

/-- C6: for every input text, generateSpeech of a constructed speech client
issues exactly one POST, to the fixed endpoint plus the fixed voice-id path
segment, with the xi-api-key header set to the configured key and the JSON
body holding the text, the configured model id and the fixed 0.5/0.5 voice
settings; on a 2xx response it returns the raw byte payload unmodified, on a
non-2xx response or a transport rejection it returns the null sentinel, and
being a total function it never raises past its boundary. -/
theorem generateSpeech_request_and_result (key : String) (marg menv : Option String)
    (svc : ElevenLabsTTSService)
    (hc : ElevenLabsTTSService.construct key marg menv = Except.ok svc)
    (transport : TTSRequest → Except String HttpResponse) (text : String) :
    (svc.generateSpeech transport text).1 =
      [{ method := "POST",
         url := "https://api.elevenlabs.io/v1/text-to-speech/21m00Tcm4TlvDq8ikWAM",
         headers := [("Accept", "audio/mpeg"), ("Content-Type", "application/json"),
                     ("xi-api-key", key)],
         body := { text := text, model_id := svc.modelId,
                   voice_settings := { stability := 1/2, similarity_boost := 1/2 } } }] ∧
    (∀ response, transport (svc.ttsRequest text) = Except.ok response →
       (svc.generateSpeech transport text).2 =
         if response.ok then some response.bodyBytes else none) ∧
    (∀ e, transport (svc.ttsRequest text) = Except.error e →
       (svc.generateSpeech transport text).2 = none) := by
  have hkey : svc.apiKey = key ∧ svc.voiceId = "21m00Tcm4TlvDq8ikWAM" := by
    unfold ElevenLabsTTSService.construct at hc
    by_cases h : key = ""
    · rw [if_pos h] at hc
      cases hc
    · rw [if_neg h] at hc
      cases hc
      exact ⟨rfl, rfl⟩
  refine ⟨?_, ?_, ?_⟩
  · unfold ElevenLabsTTSService.generateSpeech ElevenLabsTTSService.ttsRequest
    rw [hkey.1, hkey.2]
    rfl
  · intro response hres
    unfold ElevenLabsTTSService.generateSpeech
    simp only [hres]
  · intro e hres
    unfold ElevenLabsTTSService.generateSpeech
    simp only [hres]

/-- Transport stub for the C6 witness: always a 200 response with bytes. -/
def c6Transport : TTSRequest → Except String HttpResponse :=
  fun _ => Except.ok ⟨200, "", [7, 8]⟩

/-- Constructed speech client for the C6 witness. -/
def c6Svc : ElevenLabsTTSService := ⟨"k", "21m00Tcm4TlvDq8ikWAM", "eleven_multilingual_v2"⟩

/-- Witness for C6: with a 200 transport response the raw bytes come back. -/
theorem generateSpeech_request_and_result_witness :
    (c6Svc.generateSpeech c6Transport "hi").2 = some [7, 8] := by
  have h := (generateSpeech_request_and_result "k" none none c6Svc rfl c6Transport "hi").2.1
    ⟨200, "", [7, 8]⟩ rfl
  simpa [HttpResponse.ok] using h
